import Mathlib

/-!
Shallow embedding of the rt-diff-motor-control firmware core, verified against
its natural-language specification.

Sources embedded here:
- `src/src/encoder.c` : debounce pulse counter (IRQ callback) and the periodic
  speed-estimator loop body;
- `src/src/motor_model.c` and the clamping in `src/control_main.c` : the
  feedforward duty model;
- `src/src/odometry.c` : angle normalization and pose integration;
- `src/src/rpmsg_motor.c` : CFG/VEL/RST/legacy command parsing and dispatch;
- `src/control_main.c` : the direct (MSH) `cmd_speed` handler.

Machine integers are modelled as `Nat` with explicit reduction mod `2 ^ 32`
where the C code uses `uint32_t`; C `float`/`double` arithmetic is idealized
as exact arithmetic over `ℚ` (for the parsers, which are decimal-digit
manipulations) and `ℝ` (for the kinematics, which involve `π`, `cos`, `sin`).
-/

/- ================= PulseCounter (src/src/encoder.c) ================= -/

/-- An edge event on the encoder A phase: the IRQ fires on both polarities. -/
inductive Edge where
  | rising : Edge
  | falling : Edge
  deriving DecidableEq

/-- Pin level read back inside the IRQ callback: a rising edge reads high,
a falling edge reads low. -/
def Edge.level : Edge → Bool
  | Edge.rising => true
  | Edge.falling => false

/-- Modulus of the C `uint32_t` counters. -/
def u32Mod : ℕ := 2 ^ 32

/-- State of one pulse counter: `encoder1_count` (a wrapping `uint32_t`) and
the debounce latch `encoder1_has_rising`. -/
structure EncoderCounter where
  count : ℕ
  has_rising : Bool
  deriving DecidableEq

/-- Embedding of `encoder1_a_irq_callback` (src/src/encoder.c:34-51): a high
level arms the latch; a low level increments the wrapping count only when the
latch was armed, and disarms it. -/
def encoder1_a_irq_callback (s : EncoderCounter) (level : Bool) : EncoderCounter :=
  if level then
    { s with has_rising := true }
  else if s.has_rising then
    { count := (s.count + 1) % u32Mod, has_rising := false }
  else
    s

/-- Feed a finite sequence of edges to the IRQ callback. -/
def encoder_run (s : EncoderCounter) : List Edge → EncoderCounter
  | [] => s
  | e :: t => encoder_run (encoder1_a_irq_callback s e.level) t

mutual

/-- Specification-level count of complete rising-then-falling pairs in an edge
sequence: a pair is a rising edge together with the next falling edge after
it; leading falling edges and trailing unmatched rising edges pair with
nothing. -/
def risingFallingPairs : List Edge → ℕ
  | [] => 0
  | Edge.falling :: t => risingFallingPairs t
  | Edge.rising :: t => pairsAfterRising t

/-- Helper for `risingFallingPairs`: a rising edge has been seen and awaits
the next falling edge to complete one pair. -/
def pairsAfterRising : List Edge → ℕ
  | [] => 0
  | Edge.rising :: t => pairsAfterRising t
  | Edge.falling :: t => risingFallingPairs t + 1

end

/- ============ SpeedEstimator loop body (src/src/encoder.c) ============ -/

/-- Wrapping `uint32_t` subtraction `a - b`, both arguments below `2 ^ 32`. -/
def u32_sub (a b : ℕ) : ℕ := (a + u32Mod - b) % u32Mod

/-- Statics of the encoder sampling loop: `encoder*_last_count`,
`shared_speed*` and `shared_delta*` from src/src/encoder.c. -/
structure EncoderSampler where
  last_count1 : ℕ
  last_count2 : ℕ
  shared_speed1 : ℚ
  shared_speed2 : ℚ
  shared_delta1 : ℕ
  shared_delta2 : ℕ

/-- Embedding of one iteration of `encoder_print_thread_entry`
(src/src/encoder.c:226-260): read the wrapping deltas, then publish speeds
`delta * 1000 / (PPR * reduction * elapsed_ms)` only when the measured
elapsed time is positive, keeping the previous published values otherwise.
`MOTOR1_ENCODER_PPR = MOTOR2_ENCODER_PPR = 11` and
`MOTOR1_REDUCTION_RATIO = MOTOR2_REDUCTION_RATIO = 56` (src/include/common.h). -/
def encoder_print_step (s : EncoderSampler) (count1 count2 elapsed_ms : ℕ) :
    EncoderSampler :=
  let delta1 := u32_sub count1 s.last_count1
  let delta2 := u32_sub count2 s.last_count2
  let sp1 := if 0 < elapsed_ms then
      (delta1 : ℚ) * 1000 / (11 * 56 * (elapsed_ms : ℚ)) else s.shared_speed1
  let sp2 := if 0 < elapsed_ms then
      (delta2 : ℚ) * 1000 / (11 * 56 * (elapsed_ms : ℚ)) else s.shared_speed2
  { last_count1 := count1, last_count2 := count2,
    shared_speed1 := sp1, shared_speed2 := sp2,
    shared_delta1 := delta1, shared_delta2 := delta2 }

/- ======== FeedforwardModel (src/src/motor_model.c, control_main.c) ======== -/

/-- Embedding of `motor1_model` (src/src/motor_model.c:9-25): per-direction
linear fit, direction 0 yields 0, direction 1 is forward, anything else is
backward. -/
noncomputable def motor1_model (dir : ℤ) (speed : ℝ) : ℝ :=
  if dir = 0 then 0
  else if dir = 1 then 0.2781 * speed + 0.0233
  else 0.2549 * speed + 0.0306

/-- Embedding of `motor2_model` (src/src/motor_model.c:33-49). -/
noncomputable def motor2_model (dir : ℤ) (speed : ℝ) : ℝ :=
  if dir = 0 then 0
  else if dir = 1 then 0.2542 * speed + 0.0612
  else 0.2829 * speed + 0.0359

/-- Embedding of the duty clamp in `chassis_ctrl_thread_entry`
(src/control_main.c:85-88): two sequential conditional assignments. -/
noncomputable def chassis_clamp_duty (d : ℝ) : ℝ :=
  let d1 := if d < 0 then 0 else d
  if d1 > 1 then 1 else d1

/-- Duty actually issued for wheel 1 each control tick: model then clamp
(src/control_main.c:74-92). -/
noncomputable def chassis_duty1 (dir : ℤ) (speed : ℝ) : ℝ :=
  chassis_clamp_duty (motor1_model dir speed)

/-- Duty actually issued for wheel 2 each control tick. -/
noncomputable def chassis_duty2 (dir : ℤ) (speed : ℝ) : ℝ :=
  chassis_clamp_duty (motor2_model dir speed)

/- ================= C string primitives ================= -/

/-- Value of a list of decimal digit characters, most significant first. -/
def natOfDigits (ds : List Char) : ℕ :=
  ds.foldl (fun a c => 10 * a + (c.toNat - 48)) 0

/-- Embedding of C `atoi`: skip spaces, optional sign, leading digits. -/
def atoi (l : List Char) : ℤ :=
  let l1 := l.dropWhile (fun c => c == ' ')
  match l1 with
  | '-' :: t => - (natOfDigits (t.takeWhile Char.isDigit) : ℤ)
  | '+' :: t => (natOfDigits (t.takeWhile Char.isDigit) : ℤ)
  | _ => (natOfDigits (l1.takeWhile Char.isDigit) : ℤ)

/-- Embedding of C `atof` on the decimal frames this protocol uses: skip
spaces, optional sign, integer digits, optional fractional digits. -/
def atof (l : List Char) : ℚ :=
  let l1 := l.dropWhile (fun c => c == ' ')
  let sr : ℚ × List Char :=
    match l1 with
    | '-' :: t => (-1, t)
    | '+' :: t => (1, t)
    | _ => (1, l1)
  let ipart := sr.2.takeWhile Char.isDigit
  let rest := sr.2.dropWhile Char.isDigit
  let fpart : ℚ :=
    match rest with
    | '.' :: t =>
      (natOfDigits (t.takeWhile Char.isDigit) : ℚ) /
        (10 : ℚ) ^ (t.takeWhile Char.isDigit).length
    | _ => 0
  sr.1 * ((natOfDigits ipart : ℚ) + fpart)

/-- Embedding of `strchr` followed by splitting at the found character (the C
code overwrites the found character with a NUL): returns the part before the
first occurrence and the part after it, or `none` when absent. -/
def strchrSplit (ch : Char) : List Char → Option (List Char × List Char)
  | [] => none
  | c :: t =>
    if c = ch then some ([], t)
    else
      match strchrSplit ch t with
      | none => none
      | some (pre, post) => some (c :: pre, post)

/-- Embedding of a `strtok_r` loop with a one-character delimiter set: the
maximal nonempty runs between delimiters. -/
def cTokens (delim : Char) (l : List Char) : List (List Char) :=
  (l.splitOnP (fun c => c == delim)).filter (fun t => !t.isEmpty)

/- ================= Odometry (src/src/odometry.c) ================= -/

/-- First loop of `normalize_angle` (src/src/odometry.c:59-61): subtract
`2 * π` while the angle exceeds `π`. -/
noncomputable def normalize_sub (angle : ℝ) : ℝ :=
  if angle > Real.pi then normalize_sub (angle - 2 * Real.pi) else angle
termination_by Nat.ceil ((angle - Real.pi) / (2 * Real.pi))
decreasing_by
  rename_i h
  have hpi := Real.pi_pos
  have hx : 0 < (angle - Real.pi) / (2 * Real.pi) :=
    div_pos (by linarith) (by linarith)
  have hrw : (angle - 2 * Real.pi - Real.pi) / (2 * Real.pi) =
      (angle - Real.pi) / (2 * Real.pi) - 1 := by
    field_simp
    ring
  rw [hrw]
  set x := (angle - Real.pi) / (2 * Real.pi)
  have h1 : 1 ≤ Nat.ceil x := Nat.one_le_ceil_iff.mpr hx
  have h2 : Nat.ceil (x - 1) ≤ Nat.ceil x - 1 := by
    apply Nat.ceil_le.mpr
    have hle : x ≤ (Nat.ceil x : ℝ) := Nat.le_ceil x
    have hcast : ((Nat.ceil x - 1 : ℕ) : ℝ) = (Nat.ceil x : ℝ) - 1 := by
      have := Nat.cast_sub (R := ℝ) h1
      simpa using this
    rw [hcast]
    linarith
  have h3 : Nat.ceil x - 1 < Nat.ceil x := Nat.sub_lt (by omega) (by omega)
  omega

/-- Second loop of `normalize_angle` (src/src/odometry.c:62-64): add `2 * π`
while the angle is below `-π`. -/
noncomputable def normalize_add (angle : ℝ) : ℝ :=
  if angle < -Real.pi then normalize_add (angle + 2 * Real.pi) else angle
termination_by Nat.ceil ((-Real.pi - angle) / (2 * Real.pi))
decreasing_by
  rename_i h
  have hpi := Real.pi_pos
  have hx : 0 < (-Real.pi - angle) / (2 * Real.pi) :=
    div_pos (by linarith) (by linarith)
  have hrw : (-Real.pi - (angle + 2 * Real.pi)) / (2 * Real.pi) =
      (-Real.pi - angle) / (2 * Real.pi) - 1 := by
    field_simp
    ring
  rw [hrw]
  set x := (-Real.pi - angle) / (2 * Real.pi)
  have h1 : 1 ≤ Nat.ceil x := Nat.one_le_ceil_iff.mpr hx
  have h2 : Nat.ceil (x - 1) ≤ Nat.ceil x - 1 := by
    apply Nat.ceil_le.mpr
    have hle : x ≤ (Nat.ceil x : ℝ) := Nat.le_ceil x
    have hcast : ((Nat.ceil x - 1 : ℕ) : ℝ) = (Nat.ceil x : ℝ) - 1 := by
      have := Nat.cast_sub (R := ℝ) h1
      simpa using this
    rw [hcast]
    linarith
  have h3 : Nat.ceil x - 1 < Nat.ceil x := Nat.sub_lt (by omega) (by omega)
  omega

/-- Embedding of `normalize_angle` (src/src/odometry.c:58-66): the subtract
loop runs first, then the add loop. -/
noncomputable def normalize_angle (angle : ℝ) : ℝ :=
  normalize_add (normalize_sub angle)

/-- `OdometryConfig` (src/include/odometry.h): the four calibration fields. -/
structure OdometryConfig where
  wheel_radius : ℝ
  wheel_base : ℝ
  gear_ratio : ℝ
  encoder_ppr : ℝ

/-- `OdometryState` (src/include/odometry.h): pose, latest instantaneous
velocities and the millisecond timestamp. -/
structure OdometryState where
  x : ℝ
  y : ℝ
  theta : ℝ
  v : ℝ
  w : ℝ
  timestamp_ms : ℕ

/-- The odometry module statics (src/src/odometry.c): `odom_config`,
`odom_state` and `odom_configured`. -/
structure OdometryModule where
  config : OdometryConfig
  state : OdometryState
  configured : Bool

/-- Embedding of `odometry_update` (src/src/odometry.c:132-157): a no-op
unless configured and `dt > 0`, otherwise midpoint-heading pose integration,
normalized heading, and storage of the latest `v`, `w` and timestamp (the
timestamp is the current clock reading, passed in as `now_ms`). -/
noncomputable def odometry_update (m : OdometryModule)
    (v_left v_right dt : ℝ) (now_ms : ℕ) : OdometryModule :=
  if ¬ m.configured ∨ dt ≤ 0 then m
  else
    let v := (v_left + v_right) / 2
    let w := (v_right - v_left) / m.config.wheel_base
    let theta_mid := m.state.theta + w * dt / 2
    { m with state :=
      { x := m.state.x + v * Real.cos theta_mid * dt
        y := m.state.y + v * Real.sin theta_mid * dt
        theta := normalize_angle (m.state.theta + w * dt)
        v := v
        w := w
        timestamp_ms := now_ms } }

/-- Embedding of `odometry_reset` (src/src/odometry.c:175-186): zero the pose
and velocities, keep the configuration and the configured flag. -/
def odometry_reset (m : OdometryModule) : OdometryModule :=
  { m with state := { x := 0, y := 0, theta := 0, v := 0, w := 0, timestamp_ms := 0 } }

/-- Embedding of `odometry_set_params`/`odometry_configure`
(src/src/odometry.c:99-126): replace the four config fields and set the
configured flag. -/
def odometry_set_params (m : OdometryModule)
    (wheel_radius wheel_base gear_ratio encoder_ppr : ℝ) : OdometryModule :=
  { m with
    config :=
      { wheel_radius := wheel_radius, wheel_base := wheel_base,
        gear_ratio := gear_ratio, encoder_ppr := encoder_ppr }
    configured := true }

/- ============ ProtocolDispatcher (src/src/rpmsg_motor.c) ============ -/

/-- The target store shared record: per-wheel commanded direction
(`0 = stop`, `1 = forward`, `2 = backward`) and speed in rev/s, the
`motor*_target_dir` / `motor*_target_speed` statics of src/control_main.c. -/
structure ChassisTargets where
  dir1 : ℤ
  speed1 : ℝ
  dir2 : ℤ
  speed2 : ℝ

/-- Mutable module state touched by the RPMsg dispatcher: the new-protocol
flag and velocity targets of src/src/rpmsg_motor.c, the odometry module, and
the wheel target store. -/
structure RpmsgState where
  new_protocol_enabled : Bool
  target_linear_vel : ℝ
  target_angular_vel : ℝ
  odom : OdometryModule
  targets : ChassisTargets

/-- Modelled from the spec: `chassis_set_target` is declared in
`src/include/rpmsg_motor.h` as implemented by `control_main.c`, but no
definition exists in the sources; per the spec's TargetStore contract
(`set` for both wheels under one mutex) it stores all four fields. -/
def chassis_set_target (st : RpmsgState) (dir1 : ℤ) (speed1 : ℝ)
    (dir2 : ℤ) (speed2 : ℝ) : RpmsgState :=
  { st with targets :=
    { dir1 := dir1, speed1 := speed1, dir2 := dir2, speed2 := speed2 } }

/-- Fields collected by the `strtok_r` loop of `parse_cfg_command`
(src/src/rpmsg_motor.c:91-110): each `key=value` token overwrites the
matching field, starting from all zeroes; the command is first truncated to
the 127 characters that fit the 128-byte buffer. Result order:
`(wheel_radius, wheel_base, gear_ratio, encoder_ppr)`. -/
def parse_cfg_fields (cmd : List Char) : ℚ × ℚ × ℚ × ℚ :=
  (cTokens ';' (cmd.take 127)).foldl
    (fun acc tok =>
      match strchrSplit '=' tok with
      | none => acc
      | some (key, val) =>
        let v := atof val
        if key = "wheel_radius".toList then (v, acc.2.1, acc.2.2.1, acc.2.2.2)
        else if key = "wheel_base".toList then (acc.1, v, acc.2.2.1, acc.2.2.2)
        else if key = "gear_ratio".toList then (acc.1, acc.2.1, v, acc.2.2.2)
        else if key = "ppr".toList then (acc.1, acc.2.1, acc.2.2.1, v)
        else acc)
    (0, 0, 0, 0)

/-- Embedding of `parse_cfg_command` (src/src/rpmsg_motor.c:77-126): reject
with no state change when the parsed `wheel_radius` or `wheel_base` is not
positive; otherwise apply the four fields through `odometry_set_params` and
set the new-protocol flag. The `Bool` is `true` exactly on `RT_EOK`. -/
noncomputable def parse_cfg_command (st : RpmsgState) (cmd : List Char) :
    Bool × RpmsgState :=
  let f := parse_cfg_fields cmd
  if f.1 ≤ 0 ∨ f.2.1 ≤ 0 then (false, st)
  else
    (true,
      { st with
        odom := odometry_set_params st.odom (f.1 : ℝ) (f.2.1 : ℝ)
          (f.2.2.1 : ℝ) (f.2.2.2 : ℝ)
        new_protocol_enabled := true })

/-- Embedding of `parse_vel_command` (src/src/rpmsg_motor.c:134-156): split
at the first comma into `(v, w)`, with `w = 0` when there is no comma; the
command is first truncated to the 31 characters that fit the 32-byte
buffer. -/
def parse_vel_command (cmd : List Char) : ℚ × ℚ :=
  let buf := cmd.take 31
  match strchrSplit ',' buf with
  | some (a, b) => (atof a, atof b)
  | none => (atof buf, 0)

/-- Embedding of `parse_legacy_speed_command` (src/src/rpmsg_motor.c:164-211):
`none` exactly for the NULL/empty command; otherwise all four outputs start
at zero, a `dir,speed` pair before the first semicolon fills wheel 1, a pair
after it fills wheel 2, and with no semicolon only wheel 1 is parsed; the
command is first truncated to the 63 characters that fit the 64-byte buffer. -/
def parse_legacy_speed_command (cmd : List Char) : Option (ℤ × ℚ × ℤ × ℚ) :=
  if cmd = [] then none
  else
    let buf := cmd.take 63
    match strchrSplit ';' buf with
    | some (m1, m2) =>
      let p1 : ℤ × ℚ :=
        match strchrSplit ',' m1 with
        | some (a, b) => (atoi a, atof b)
        | none => (0, 0)
      let p2 : ℤ × ℚ :=
        match strchrSplit ',' m2 with
        | some (a, b) => (atoi a, atof b)
        | none => (0, 0)
      some (p1.1, p1.2, p2.1, p2.2)
    | none =>
      match strchrSplit ',' buf with
      | some (a, b) => some (atoi a, atof b, 0, 0)
      | none => some (0, 0, 0, 0)

/-- Embedding of `rpmsg_motor_vel_to_wheel_speeds`
(src/src/rpmsg_motor.c:247-257): differential-drive inverse kinematics with
a 0.2 m default when no positive wheel base is configured. -/
noncomputable def rpmsg_motor_vel_to_wheel_speeds (cfg : OdometryConfig)
    (v w : ℝ) : ℝ × ℝ :=
  let wheel_base := if cfg.wheel_base ≤ 0 then (0.2 : ℝ) else cfg.wheel_base
  (v - w * wheel_base / 2, v + w * wheel_base / 2)

/-- Embedding of `rpmsg_motor_wheel_speed_to_motor_rps`
(src/src/rpmsg_motor.c:262-272): returns 0 when no positive wheel radius is
configured, else `wheel_speed / (2 * π * wheel_radius)`. -/
noncomputable def rpmsg_motor_wheel_speed_to_motor_rps (cfg : OdometryConfig)
    (wheel_speed : ℝ) : ℝ :=
  if cfg.wheel_radius ≤ 0 then 0
  else wheel_speed / (2 * Real.pi * cfg.wheel_radius)

/-- Sign-to-direction mapping with the 0.001 dead band
(src/src/rpmsg_motor.c:315-316). -/
noncomputable def rps_to_dir (rps : ℝ) : ℤ :=
  if rps > 0.001 then 1 else if rps < -0.001 then 2 else 0

/-- Embedding of `rpmsg_motor_endpoint_cb` (src/src/rpmsg_motor.c:279-346):
prefix dispatch over `CFG:`, `VEL:`, `RST:`, then the legacy dialect; the
`VEL:` path stores the velocity targets, converts to per-wheel motor rev/s
and sets both wheel targets with absolute speeds; the legacy path sets both
wheel targets with the parsed values; a failed legacy parse (empty frame)
only logs. -/
noncomputable def rpmsg_motor_endpoint_cb (st : RpmsgState) (data : List Char) :
    RpmsgState :=
  if data.take 4 = "CFG:".toList then
    (parse_cfg_command st (data.drop 4)).2
  else if data.take 4 = "VEL:".toList then
    let vw := parse_vel_command (data.drop 4)
    let st1 := { st with
      target_linear_vel := (vw.1 : ℝ), target_angular_vel := (vw.2 : ℝ) }
    let lr := rpmsg_motor_vel_to_wheel_speeds st1.odom.config (vw.1 : ℝ) (vw.2 : ℝ)
    let rps_left := rpmsg_motor_wheel_speed_to_motor_rps st1.odom.config lr.1
    let rps_right := rpmsg_motor_wheel_speed_to_motor_rps st1.odom.config lr.2
    chassis_set_target st1 (rps_to_dir rps_left) |rps_left|
      (rps_to_dir rps_right) |rps_right|
  else if data.take 4 = "RST:".toList then
    { st with odom := odometry_reset st.odom }
  else
    match parse_legacy_speed_command data with
    | some r => chassis_set_target st r.1 (r.2.1 : ℝ) r.2.2.1 (r.2.2.2 : ℝ)
    | none => st

/- ============ Direct command path (src/control_main.c) ============ -/

/-- Embedding of `parse_speed_cmd` (src/control_main.c:174-204): fails on an
empty command or when no comma is found within the 31 characters that fit
the 32-byte buffer; otherwise `atoi` before the comma and `atof` after it. -/
def parse_speed_cmd (cmd : List Char) : Option (ℤ × ℚ) :=
  if cmd = [] then none
  else
    let buf := cmd.take 31
    match strchrSplit ',' buf with
    | none => none
    | some (a, b) => some (atoi a, atof b)

/-- Embedding of `cmd_speed` (src/control_main.c:216-274) acting on the
target store: the argument is truncated to the 63 characters that fit the
64-byte buffer; with a semicolon both halves must parse, without one only
wheel 1 is parsed while the local `dir2 = 0, speed2 = 0.0` initializers
remain; on success all four target fields are stored, on any parse failure
the handler returns before touching the store. -/
def cmd_speed (t : ChassisTargets) (arg : List Char) : ChassisTargets :=
  let buf := arg.take 63
  match strchrSplit ';' buf with
  | some (c1, c2) =>
    match parse_speed_cmd c1, parse_speed_cmd c2 with
    | some p1, some p2 =>
      { dir1 := p1.1, speed1 := (p1.2 : ℝ), dir2 := p2.1, speed2 := (p2.2 : ℝ) }
    | _, _ => t
  | none =>
    match parse_speed_cmd buf with
    | some p1 => { dir1 := p1.1, speed1 := (p1.2 : ℝ), dir2 := 0, speed2 := 0 }
    | none => t

/- ================= Concrete states and frames ================= -/

/-- Odometry module right after `odometry_init` (src/src/odometry.c:73-94):
zero radius and base, default gear ratio 56 and PPR 11, zero state, not
configured. -/
noncomputable def initOdometryModule : OdometryModule :=
  { config := { wheel_radius := 0, wheel_base := 0, gear_ratio := 56, encoder_ppr := 11 }
    state := { x := 0, y := 0, theta := 0, v := 0, w := 0, timestamp_ms := 0 }
    configured := false }

/-- Module state right after `rpmsg_motor_init`: new-protocol flag off, zero
velocity targets, freshly initialized odometry, zero wheel targets. -/
noncomputable def initRpmsgState : RpmsgState :=
  { new_protocol_enabled := false
    target_linear_vel := 0
    target_angular_vel := 0
    odom := initOdometryModule
    targets := { dir1 := 0, speed1 := 0, dir2 := 0, speed2 := 0 } }

/-- A configured odometry module used as a concrete evaluation point. -/
noncomputable def configuredOdomModule : OdometryModule :=
  { config := { wheel_radius := 0.05, wheel_base := 0.2, gear_ratio := 56, encoder_ppr := 11 }
    state := { x := 0, y := 0, theta := 0, v := 0, w := 0, timestamp_ms := 0 }
    configured := true }

/-- A state whose wheel targets are all nonzero, to observe overwrites. -/
noncomputable def garbagePriorState : RpmsgState :=
  { initRpmsgState with
    targets := { dir1 := 1, speed1 := 0.5, dir2 := 2, speed2 := 0.3 } }

/-- A target store with a nonzero wheel 2, to observe wheel 2 overwrites. -/
noncomputable def wheel2BusyTargets : ChassisTargets :=
  { dir1 := 0, speed1 := 0, dir2 := 2, speed2 := 0.3 }

/-- The configuration frame of the round-trip test. -/
def cfgFrame : List Char :=
  "CFG:wheel_radius=0.05;wheel_base=0.2;gear_ratio=56;ppr=11".toList

/-- The velocity frame of the round-trip test. -/
def velFrame : List Char := "VEL:0.5,0.0".toList

/- ================= Helper lemmas ================= -/

theorem chassis_clamp_duty_eq (d : ℝ) :
    chassis_clamp_duty d = max 0 (min 1 d) := by
  simp only [chassis_clamp_duty]
  by_cases h1 : d < 0
  · rw [if_pos h1, if_neg (by norm_num : ¬ (0:ℝ) > 1),
      min_eq_right (by linarith : d ≤ 1), max_eq_left h1.le]
  · rw [if_neg h1]
    push_neg at h1
    by_cases h2 : d > 1
    · rw [if_pos h2, min_eq_left h2.le, max_eq_right zero_le_one]
    · push_neg at h2
      rw [if_neg (not_lt.mpr h2), min_eq_right h2, max_eq_right h1]

theorem encoder_run_count (l : List Edge) :
    ∀ c : ℕ, c < u32Mod →
      (encoder_run { count := c, has_rising := false } l).count =
        (c + risingFallingPairs l) % u32Mod ∧
      (encoder_run { count := c, has_rising := true } l).count =
        (c + pairsAfterRising l) % u32Mod := by
  induction l with
  | nil =>
    intro c hc
    constructor <;>
      simp [encoder_run, risingFallingPairs, pairsAfterRising, Nat.mod_eq_of_lt hc]
  | cons e t ih =>
    intro c hc
    cases e with
    | rising =>
      constructor
      · show (encoder_run { count := c, has_rising := true } t).count = _
        rw [risingFallingPairs]
        exact (ih c hc).2
      · show (encoder_run { count := c, has_rising := true } t).count = _
        rw [pairsAfterRising]
        exact (ih c hc).2
    | falling =>
      constructor
      · show (encoder_run { count := c, has_rising := false } t).count = _
        rw [risingFallingPairs]
        exact (ih c hc).1
      · show (encoder_run { count := (c + 1) % u32Mod, has_rising := false } t).count = _
        rw [pairsAfterRising]
        have hlt : (c + 1) % u32Mod < u32Mod :=
          Nat.mod_lt _ (by norm_num [u32Mod])
        rw [(ih ((c + 1) % u32Mod) hlt).1, Nat.mod_add_mod]
        congr 1
        omega

theorem atof_005 : atof ("0.05".toList) = 1 / 20 := by
  simp [atof, natOfDigits, List.dropWhile, List.takeWhile]
  norm_num

theorem atof_02 : atof ("0.2".toList) = 1 / 5 := by
  simp [atof, natOfDigits, List.dropWhile, List.takeWhile]
  norm_num

theorem atof_56 : atof ("56".toList) = 56 := by
  simp [atof, natOfDigits, List.dropWhile, List.takeWhile]

theorem atof_11 : atof ("11".toList) = 11 := by
  simp [atof, natOfDigits, List.dropWhile, List.takeWhile]

theorem atof_05 : atof ("0.5".toList) = 1 / 2 := by
  simp [atof, natOfDigits, List.dropWhile, List.takeWhile]
  norm_num

theorem atof_00 : atof ("0.0".toList) = 0 := by
  simp [atof, natOfDigits, List.dropWhile, List.takeWhile]

theorem atof_15 : atof ("1.5".toList) = 3 / 2 := by
  simp [atof, natOfDigits, List.dropWhile, List.takeWhile]
  norm_num

theorem parse_cfg_fields_radius_only :
    parse_cfg_fields ("wheel_radius=0.05".toList) = (1 / 20, 0, 0, 0) := by
  have h : parse_cfg_fields ("wheel_radius=0.05".toList) =
      (atof ("0.05".toList), 0, 0, 0) := rfl
  rw [h, atof_005]

theorem parse_cfg_fields_full :
    parse_cfg_fields
        ("wheel_radius=0.05;wheel_base=0.2;gear_ratio=56;ppr=11".toList) =
      (1 / 20, 1 / 5, 56, 11) := by
  have h : parse_cfg_fields
      ("wheel_radius=0.05;wheel_base=0.2;gear_ratio=56;ppr=11".toList) =
      (atof ("0.05".toList), atof ("0.2".toList), atof ("56".toList),
        atof ("11".toList)) := rfl
  rw [h, atof_005, atof_02, atof_56, atof_11]

theorem parse_speed_cmd_1_05 :
    parse_speed_cmd (("1,0.5".toList).take 63) = some (1, 1 / 2) := by
  have h : parse_speed_cmd (("1,0.5".toList).take 63) =
      some (atoi ("1".toList), atof ("0.5".toList)) := rfl
  rw [h, atof_05, (by decide : atoi ("1".toList) = 1)]

theorem parse_speed_cmd_2_15 :
    parse_speed_cmd (("2,1.5".toList).take 63) = some (2, 3 / 2) := by
  have h : parse_speed_cmd (("2,1.5".toList).take 63) =
      some (atoi ("2".toList), atof ("1.5".toList)) := rfl
  rw [h, atof_15, (by decide : atoi ("2".toList) = 2)]

theorem vel_to_wheels_zero_angular (cfg : OdometryConfig) (v : ℝ)
    (h : ¬ cfg.wheel_base ≤ 0) :
    rpmsg_motor_vel_to_wheel_speeds cfg v 0 = (v, v) := by
  rw [rpmsg_motor_vel_to_wheel_speeds, if_neg h]
  rw [Prod.mk.injEq]
  constructor <;> ring

theorem wheel_speed_to_rps_of_pos (cfg : OdometryConfig) (v : ℝ)
    (h : ¬ cfg.wheel_radius ≤ 0) :
    rpmsg_motor_wheel_speed_to_motor_rps cfg v =
      v / (2 * Real.pi * cfg.wheel_radius) := by
  rw [rpmsg_motor_wheel_speed_to_motor_rps, if_neg h]

theorem normalize_sub_le_pi (a : ℝ) : normalize_sub a ≤ Real.pi := by
  induction a using normalize_sub.induct with
  | case1 a h ih =>
    rw [normalize_sub, if_pos h]
    exact ih
  | case2 a h =>
    rw [normalize_sub, if_neg h]
    exact not_lt.mp h

theorem normalize_add_bounds (a : ℝ) :
    a ≤ Real.pi → -Real.pi ≤ normalize_add a ∧ normalize_add a ≤ Real.pi := by
  induction a using normalize_add.induct with
  | case1 a h1 ih =>
    intro _
    have hpi := Real.pi_pos
    rw [normalize_add, if_pos h1]
    exact ih (by linarith)
  | case2 a h1 =>
    intro h
    rw [normalize_add, if_neg h1]
    exact ⟨not_lt.mp h1, h⟩

theorem normalize_angle_mem (a : ℝ) :
    normalize_angle a ∈ Set.Icc (-Real.pi) Real.pi := by
  rw [normalize_angle]
  have h2 := normalize_add_bounds (normalize_sub a) (normalize_sub_le_pi a)
  exact Set.mem_Icc.mpr h2

/- ================= Claim theorems ================= -/

/-- C2: starting from the idle (unarmed) state, feeding any finite edge
sequence to the pulse-counter IRQ callback leaves the `uint32` count at the
initial count plus the number of complete rising-then-falling pairs (mod
`2 ^ 32`); moreover a rising edge while already armed and a falling edge
while idle leave the counter state entirely unchanged. -/
theorem C2_pulse_count_equals_pair_count :
    ∀ (l : List Edge) (c0 : ℕ), c0 < u32Mod →
      (encoder_run { count := c0, has_rising := false } l).count =
        (c0 + risingFallingPairs l) % u32Mod ∧
      (∀ s : EncoderCounter, s.has_rising = true →
        encoder1_a_irq_callback s Edge.rising.level = s) ∧
      (∀ s : EncoderCounter, s.has_rising = false →
        encoder1_a_irq_callback s Edge.falling.level = s) := by
  intro l c0 hc0
  refine ⟨(encoder_run_count l c0 hc0).1, ?_, ?_⟩
  · intro s hs
    cases s with
    | mk c r => cases hs; rfl
  · intro s hs
    cases s with
    | mk c r => cases hs; rfl

theorem C2_witness :
    (0 : ℕ) < u32Mod ∧
    (encoder_run { count := 0, has_rising := false }
        [Edge.rising, Edge.rising, Edge.falling, Edge.falling, Edge.rising]).count =
      (0 + risingFallingPairs
        [Edge.rising, Edge.rising, Edge.falling, Edge.falling, Edge.rising]) % u32Mod :=
  ⟨by norm_num [u32Mod],
   (C2_pulse_count_equals_pair_count
     [Edge.rising, Edge.rising, Edge.falling, Edge.falling, Edge.rising] 0
     (by norm_num [u32Mod])).1⟩

/-- C3: each control tick the issued duty is the per-motor per-direction
linear fit followed by the clamp to `[0, 1]`: direction 0 (stop) yields 0,
direction 1 (forward) and any other direction (backward) yield
`clamp(k * speed + b, 0, 1)` with the four independent calibrated `(k, b)`
pairs, and the result lies in `[0, 1]` for every direction and every speed. -/
theorem C3_duty_is_clamped_linear_fit :
    ∀ (dir : ℤ) (speed : ℝ),
      (0 ≤ chassis_duty1 dir speed ∧ chassis_duty1 dir speed ≤ 1) ∧
      (0 ≤ chassis_duty2 dir speed ∧ chassis_duty2 dir speed ≤ 1) ∧
      chassis_duty1 0 speed = 0 ∧ chassis_duty2 0 speed = 0 ∧
      chassis_duty1 1 speed = max 0 (min 1 (0.2781 * speed + 0.0233)) ∧
      chassis_duty1 2 speed = max 0 (min 1 (0.2549 * speed + 0.0306)) ∧
      chassis_duty2 1 speed = max 0 (min 1 (0.2542 * speed + 0.0612)) ∧
      chassis_duty2 2 speed = max 0 (min 1 (0.2829 * speed + 0.0359)) := by
  intro dir speed
  have hb : ∀ x : ℝ, 0 ≤ max 0 (min 1 x) ∧ max 0 (min 1 x) ≤ 1 := by
    intro x
    refine ⟨le_max_left 0 _, max_le zero_le_one (min_le_left 1 x)⟩
  refine ⟨?_, ?_, ?_, ?_, ?_, ?_, ?_, ?_⟩
  · rw [chassis_duty1, chassis_clamp_duty_eq]; exact hb _
  · rw [chassis_duty2, chassis_clamp_duty_eq]; exact hb _
  · rw [chassis_duty1, chassis_clamp_duty_eq]
    simp [motor1_model]
  · rw [chassis_duty2, chassis_clamp_duty_eq]
    simp [motor2_model]
  · rw [chassis_duty1, chassis_clamp_duty_eq, motor1_model]
    norm_num
  · rw [chassis_duty1, chassis_clamp_duty_eq, motor1_model]
    norm_num
  · rw [chassis_duty2, chassis_clamp_duty_eq, motor2_model]
    norm_num
  · rw [chassis_duty2, chassis_clamp_duty_eq, motor2_model]
    norm_num

/-- C4, counterexample: `normalize_angle` does not map every angle into the
half-open interval `(-π, π]`; the input `-π` is returned unchanged, outside
`Set.Ioc (-π) π`. -/
theorem C4_counterexample_neg_pi :
    normalize_angle (-Real.pi) = -Real.pi ∧
    normalize_angle (-Real.pi) ∉ Set.Ioc (-Real.pi) Real.pi := by
  have hpi := Real.pi_pos
  have h1 : normalize_sub (-Real.pi) = -Real.pi := by
    rw [normalize_sub, if_neg (by linarith : ¬ -Real.pi > Real.pi)]
  have h2 : normalize_add (-Real.pi) = -Real.pi := by
    rw [normalize_add, if_neg (lt_irrefl (-Real.pi))]
  refine ⟨by rw [normalize_angle, h1, h2], ?_⟩
  rw [normalize_angle, h1, h2]
  intro hmem
  exact lt_irrefl _ hmem.1

/-- C4, amended: `normalize_angle` maps every angle into the closed interval
`[-π, π]` (the endpoint `-π` included), and `odometry_update` keeps the
stored heading in that closed interval. -/
theorem C4_theta_stays_in_closed_interval :
    (∀ a : ℝ, normalize_angle a ∈ Set.Icc (-Real.pi) Real.pi) ∧
    (∀ (m : OdometryModule) (v_left v_right dt : ℝ) (now_ms : ℕ),
      m.state.theta ∈ Set.Icc (-Real.pi) Real.pi →
      (odometry_update m v_left v_right dt now_ms).state.theta ∈
        Set.Icc (-Real.pi) Real.pi) := by
  refine ⟨normalize_angle_mem, ?_⟩
  intro m vl vr dt now hm
  rw [odometry_update]
  split_ifs with h
  · exact hm
  · exact normalize_angle_mem _

theorem C4_witness :
    (odometry_update configuredOdomModule 0 0 1 5).state.theta ∈
      Set.Icc (-Real.pi) Real.pi :=
  C4_theta_stays_in_closed_interval.2 configuredOdomModule 0 0 1 5
    (by
      show (0 : ℝ) ∈ Set.Icc (-Real.pi) Real.pi
      have hpi := Real.pi_pos
      exact Set.mem_Icc.mpr ⟨by linarith, by linarith⟩)

/-- C5: when configured and `dt > 0`, one `odometry_update` call computes
`v = (v_left + v_right) / 2` and `w = (v_right - v_left) / wheel_base`,
advances the pose with the midpoint heading
`theta_mid = theta + w * dt / 2`, normalizes the new heading, and stores `v`,
`w` and the timestamp as the latest instantaneous values; when unconfigured
or `dt ≤ 0` the call is a no-op. -/
theorem C5_odometry_update_kinematics :
    ∀ (m : OdometryModule) (v_left v_right dt : ℝ) (now_ms : ℕ),
      (m.configured = true → 0 < dt →
        odometry_update m v_left v_right dt now_ms =
          { config := m.config
            state :=
              { x := m.state.x + ((v_left + v_right) / 2) *
                  Real.cos (m.state.theta +
                    ((v_right - v_left) / m.config.wheel_base) * dt / 2) * dt
                y := m.state.y + ((v_left + v_right) / 2) *
                  Real.sin (m.state.theta +
                    ((v_right - v_left) / m.config.wheel_base) * dt / 2) * dt
                theta := normalize_angle (m.state.theta +
                  ((v_right - v_left) / m.config.wheel_base) * dt)
                v := (v_left + v_right) / 2
                w := (v_right - v_left) / m.config.wheel_base
                timestamp_ms := now_ms }
            configured := m.configured }) ∧
      ((m.configured = false ∨ dt ≤ 0) →
        odometry_update m v_left v_right dt now_ms = m) := by
  intro m vl vr dt now
  constructor
  · intro hc hdt
    have hguard : ¬ (¬ (m.configured = true) ∨ dt ≤ 0) := by
      push_neg
      exact ⟨hc, hdt⟩
    rw [odometry_update, if_neg hguard]
  · intro h
    rw [odometry_update, if_pos]
    cases h with
    | inl h => exact Or.inl (by simp [h])
    | inr h => exact Or.inr h

theorem C5_witness :
    odometry_update configuredOdomModule 1 1 1 7 =
      { config := configuredOdomModule.config
        state :=
          { x := configuredOdomModule.state.x + ((1 + 1) / 2) *
              Real.cos (configuredOdomModule.state.theta +
                ((1 - 1) / configuredOdomModule.config.wheel_base) * 1 / 2) * 1
            y := configuredOdomModule.state.y + ((1 + 1) / 2) *
              Real.sin (configuredOdomModule.state.theta +
                ((1 - 1) / configuredOdomModule.config.wheel_base) * 1 / 2) * 1
            theta := normalize_angle (configuredOdomModule.state.theta +
              ((1 - 1) / configuredOdomModule.config.wheel_base) * 1)
            v := (1 + 1) / 2
            w := (1 - 1) / configuredOdomModule.config.wheel_base
            timestamp_ms := 7 }
        configured := configuredOdomModule.configured } :=
  (C5_odometry_update_kinematics configuredOdomModule 1 1 1 7).1 rfl
    (by norm_num)

/-- C7: a CFG frame whose parsed `wheel_radius` or `wheel_base` is not
positive is rejected with no state change at all (configuration retained,
new-protocol flag not flipped); with both positive, the four parsed fields
are applied through `odometry_set_params` and the new-protocol flag is set. -/
theorem C7_cfg_validation :
    ∀ (st : RpmsgState) (cmd : List Char) (r L g p : ℚ),
      parse_cfg_fields cmd = (r, L, g, p) →
      ((r ≤ 0 ∨ L ≤ 0) → parse_cfg_command st cmd = (false, st)) ∧
      (0 < r → 0 < L →
        parse_cfg_command st cmd =
          (true,
            { st with
              odom := odometry_set_params st.odom (r : ℝ) (L : ℝ) (g : ℝ) (p : ℝ)
              new_protocol_enabled := true })) := by
  intro st cmd r L g p hf
  constructor
  · intro h
    simp only [parse_cfg_command, hf]
    rw [if_pos h]
  · intro hr hL
    simp only [parse_cfg_command, hf]
    rw [if_neg (by push_neg; exact ⟨hr, hL⟩)]

theorem C7_witness :
    parse_cfg_command initRpmsgState ("wheel_radius=0.05".toList) =
      (false, initRpmsgState) :=
  (C7_cfg_validation initRpmsgState ("wheel_radius=0.05".toList)
      (1 / 20) 0 0 0 parse_cfg_fields_radius_only).1 (Or.inr le_rfl)

/-- C6, counterexample: the direct-command handler `cmd_speed`, given the
lone pair `"1,0.5"`, does not leave wheel 2's target unchanged: a store
whose wheel 2 held direction 2 at 0.3 rev/s ends with wheel 2 at stop with
speed 0. -/
theorem C6_counterexample_direct_path_zeroes_wheel2 :
    cmd_speed wheel2BusyTargets ("1,0.5".toList) =
      { dir1 := 1, speed1 := ((1/2 : ℚ) : ℝ), dir2 := 0, speed2 := 0 } ∧
    wheel2BusyTargets.dir2 = 2 ∧
    (cmd_speed wheel2BusyTargets ("1,0.5".toList)).dir2 ≠
      wheel2BusyTargets.dir2 := by
  have h1 : strchrSplit ';' (("1,0.5".toList).take 63) = none := by decide
  have h2 : parse_speed_cmd (("1,0.5".toList).take 63) = some (1, 1 / 2) :=
    parse_speed_cmd_1_05
  have hres : cmd_speed wheel2BusyTargets ("1,0.5".toList) =
      { dir1 := 1, speed1 := ((1/2 : ℚ) : ℝ), dir2 := 0, speed2 := 0 } := by
    simp only [cmd_speed, h1, h2]
  refine ⟨hres, rfl, ?_⟩
  rw [hres]
  intro h
  simp [wheel2BusyTargets] at h

/-- C6, amended: on a lone `dir,speed` pair (no semicolon), the direct
command path and the RPMsg legacy parser behave the same way on wheel 2:
`cmd_speed` stores the local zero initializers as wheel 2's target, and
`parse_legacy_speed_command` likewise reports wheel 2 as direction 0 with
speed 0; there is no asymmetry between the two paths. -/
theorem C6_both_paths_zero_wheel2 :
    ∀ (t : ChassisTargets) (arg : List Char) (d : ℤ) (s : ℚ),
      strchrSplit ';' (arg.take 63) = none →
      parse_speed_cmd (arg.take 63) = some (d, s) →
      arg ≠ [] →
      cmd_speed t arg =
        { dir1 := d, speed1 := (s : ℝ), dir2 := 0, speed2 := 0 } ∧
      ∃ d1 s1, parse_legacy_speed_command arg = some (d1, s1, 0, 0) := by
  intro t arg d s hsemi hparse hne
  constructor
  · simp only [cmd_speed, hsemi, hparse]
  · rw [parse_legacy_speed_command, if_neg hne]
    simp only [hsemi]
    cases hc : strchrSplit ',' (arg.take 63) with
    | none => exact ⟨0, 0, by simp [hc]⟩
    | some pr => exact ⟨atoi pr.1, atof pr.2, by simp [hc]⟩

theorem C6_witness :
    cmd_speed wheel2BusyTargets ("2,1.5".toList) =
      { dir1 := 2, speed1 := ((3 / 2 : ℚ) : ℝ), dir2 := 0, speed2 := 0 } ∧
    ∃ d1 s1, parse_legacy_speed_command ("2,1.5".toList) =
      some (d1, s1, 0, 0) :=
  C6_both_paths_zero_wheel2 wheel2BusyTargets ("2,1.5".toList) 2 (3 / 2)
    (by decide) parse_speed_cmd_2_15 (by decide)

/-- C1, code evaluated at the failing input: the frame `"garbage"` matches
no prefix and is not a well-formed legacy command, yet the dispatcher does
not leave the wheel target store unchanged: the lenient legacy parser
accepts any non-empty frame, so both wheel targets are overwritten with
stop/zero (the odometry state, by contrast, is indeed untouched). -/
theorem C1_garbage_frame_overwrites_wheel_targets :
    (rpmsg_motor_endpoint_cb garbagePriorState ("garbage".toList)).targets =
      { dir1 := 0, speed1 := 0, dir2 := 0, speed2 := 0 } ∧
    (rpmsg_motor_endpoint_cb garbagePriorState ("garbage".toList)).targets ≠
      garbagePriorState.targets ∧
    (rpmsg_motor_endpoint_cb garbagePriorState ("garbage".toList)).odom =
      garbagePriorState.odom := by
  have hc : ¬ (("garbage".toList).take 4 = "CFG:".toList) := by decide
  have hv : ¬ (("garbage".toList).take 4 = "VEL:".toList) := by decide
  have hr : ¬ (("garbage".toList).take 4 = "RST:".toList) := by decide
  have hl : parse_legacy_speed_command ("garbage".toList) = some (0, 0, 0, 0) := by
    decide
  have hres : rpmsg_motor_endpoint_cb garbagePriorState ("garbage".toList) =
      chassis_set_target garbagePriorState 0 ((0 : ℚ) : ℝ) 0 ((0 : ℚ) : ℝ) := by
    rw [rpmsg_motor_endpoint_cb, if_neg hc, if_neg hv, if_neg hr, hl]
  refine ⟨?_, ?_, ?_⟩
  · rw [hres]
    simp [chassis_set_target]
  · rw [hres]
    intro h
    have := congrArg ChassisTargets.dir1 h
    simp [chassis_set_target, garbagePriorState, initRpmsgState] at this
  · rw [hres]
    rfl

/-- C9: a speed-estimator sampling step whose measured elapsed time is zero
publishes both wheels' previous speed values unchanged (the division by the
elapsed time is behind the `elapsed_ms > 0` guard), so the estimator never
reports a zero or undefined speed in that case. -/
theorem C9_zero_elapsed_keeps_previous_speeds :
    ∀ (s : EncoderSampler) (count1 count2 : ℕ),
      (encoder_print_step s count1 count2 0).shared_speed1 = s.shared_speed1 ∧
      (encoder_print_step s count1 count2 0).shared_speed2 = s.shared_speed2 := by
  intro s c1 c2
  constructor <;> simp [encoder_print_step]

/-- C8: processing the frame
`"CFG:wheel_radius=0.05;wheel_base=0.2;gear_ratio=56;ppr=11"` followed by
`"VEL:0.5,0.0"` sets both wheels' targets to the same speed, equal to
`0.5 / (2 * π * 0.05)` rev/s, with direction forward (1) on both wheels. -/
theorem C8_cfg_then_vel_sets_equal_forward_targets :
    (rpmsg_motor_endpoint_cb (rpmsg_motor_endpoint_cb initRpmsgState cfgFrame)
        velFrame).targets.dir1 = 1 ∧
    (rpmsg_motor_endpoint_cb (rpmsg_motor_endpoint_cb initRpmsgState cfgFrame)
        velFrame).targets.dir2 = 1 ∧
    (rpmsg_motor_endpoint_cb (rpmsg_motor_endpoint_cb initRpmsgState cfgFrame)
        velFrame).targets.speed1 = 0.5 / (2 * Real.pi * 0.05) ∧
    (rpmsg_motor_endpoint_cb (rpmsg_motor_endpoint_cb initRpmsgState cfgFrame)
        velFrame).targets.speed2 =
      (rpmsg_motor_endpoint_cb (rpmsg_motor_endpoint_cb initRpmsgState cfgFrame)
        velFrame).targets.speed1 := by
  have hcfgtake : cfgFrame.take 4 = "CFG:".toList := by decide
  have hdrop : cfgFrame.drop 4 =
      "wheel_radius=0.05;wheel_base=0.2;gear_ratio=56;ppr=11".toList := by decide
  have hfields : parse_cfg_fields (cfgFrame.drop 4) = (1 / 20, 1 / 5, 56, 11) := by
    rw [hdrop]
    exact parse_cfg_fields_full
  have h1 : rpmsg_motor_endpoint_cb initRpmsgState cfgFrame =
      { initRpmsgState with
        odom := odometry_set_params initRpmsgState.odom ((1 / 20 : ℚ) : ℝ)
          ((1 / 5 : ℚ) : ℝ) ((56 : ℚ) : ℝ) ((11 : ℚ) : ℝ)
        new_protocol_enabled := true } := by
    rw [rpmsg_motor_endpoint_cb, if_pos hcfgtake]
    simp only [parse_cfg_command, hfields]
    rw [if_neg (by norm_num : ¬ ((1 / 20 : ℚ) ≤ 0 ∨ (1 / 5 : ℚ) ≤ 0))]
  have hveltake1 : ¬ (velFrame.take 4 = "CFG:".toList) := by decide
  have hveltake2 : velFrame.take 4 = "VEL:".toList := by decide
  have hvwstruct : parse_vel_command (velFrame.drop 4) =
      (atof ("0.5".toList), atof ("0.0".toList)) := rfl
  have hvw : parse_vel_command (velFrame.drop 4) = (1 / 2, 0) := by
    rw [hvwstruct, atof_05, atof_00]
  have hwb : ¬ ((⟨((1 / 20 : ℚ) : ℝ), ((1 / 5 : ℚ) : ℝ), ((56 : ℚ) : ℝ),
      ((11 : ℚ) : ℝ)⟩ : OdometryConfig).wheel_base ≤ 0) := by
    show ¬ (((1 / 5 : ℚ) : ℝ) ≤ 0)
    push_cast
    norm_num
  have hwr : ¬ ((⟨((1 / 20 : ℚ) : ℝ), ((1 / 5 : ℚ) : ℝ), ((56 : ℚ) : ℝ),
      ((11 : ℚ) : ℝ)⟩ : OdometryConfig).wheel_radius ≤ 0) := by
    show ¬ (((1 / 20 : ℚ) : ℝ) ≤ 0)
    push_cast
    norm_num
  have hr20 : (0 : ℝ) < 2 * Real.pi * ((1 / 20 : ℚ) : ℝ) := by
    have hpi := Real.pi_pos
    push_cast
    nlinarith
  have hgt : ((1 / 2 : ℚ) : ℝ) / (2 * Real.pi * ((1 / 20 : ℚ) : ℝ)) > 0.001 := by
    rw [gt_iff_lt, lt_div_iff₀ hr20]
    push_cast
    nlinarith [Real.pi_lt_d2, Real.pi_pos]
  have hdir : rps_to_dir (((1 / 2 : ℚ) : ℝ) /
      (2 * Real.pi * ((1 / 20 : ℚ) : ℝ))) = 1 := by
    rw [rps_to_dir, if_pos hgt]
  have habs : |((1 / 2 : ℚ) : ℝ) / (2 * Real.pi * ((1 / 20 : ℚ) : ℝ))| =
      0.5 / (2 * Real.pi * 0.05) := by
    rw [abs_of_pos (div_pos (by push_cast; norm_num) hr20)]
    push_cast
    norm_num
  refine ⟨?_, ?_, ?_, ?_⟩ <;>
    rw [h1, rpmsg_motor_endpoint_cb, if_neg hveltake1, if_pos hveltake2, hvw] <;>
    simp only [chassis_set_target, odometry_set_params, initRpmsgState,
      initOdometryModule, Rat.cast_zero] <;>
    rw [vel_to_wheels_zero_angular _ _ hwb] <;>
    simp only [] <;>
    rw [wheel_speed_to_rps_of_pos _ _ hwr]
  · exact hdir
  · exact hdir
  · exact habs
